import Mathlib

/-!
Verification development for the newd network-configuration daemon.

Shallow embedding of the decode path (src/kroute.c), the encode path
(src/netcfgd_v4.c) and the configuration merge / IPC dispatch logic
(src/newd.c), together with theorems checking the natural-language
design document against this embedding.

Conventions of the embedding:
* byte buffers are `List Nat`, each element a byte value;
* machine integers are `Nat` (or `Int` where the C type is signed);
* multi-byte header fields that the decode loop reads from raw bytes
  (only `rtm_msglen`, the first, 2-byte member of `struct rt_msghdr`)
  are decoded little-endian, matching the platform the code targets;
* the remaining header fields are carried in a structured record,
  since the loop hands `struct rt_msghdr` to the per-message handlers
  as a typed value;
* `fatalx`/`fatal` (process termination) and `event_loopexit` are
  modelled as distinguished result constructors.
-/

/-! ## Platform and protocol constants

`AF_INET`/`AF_INET6` are the OpenBSD address-family tags.  The
routing-header constants (`RTM_*`, `RTA_*`, `RTAX_*`, `RTV_MTU`) come
from the system's `net/route.h`, which is not part of this repository;
the slot table follows the design document's slot list (standard slots
destination, gateway, netmask, generic mask, link, interface address,
author, broker, then the extension slots for the four DNS servers, the
static-route list and the search-domain list).  None of the theorems
below depend on the particular numeric values, only on slots being
distinct indices and bits being distinct powers of two. -/

def AF_INET : Nat := 2

def AF_INET6 : Nat := 24

def RTM_VERSION : Nat := 5

/-- Modelled from the spec: the "proposal" message type tag of the
kernel routing header (`RTM_PROPOSAL`, from the system `net/route.h`
which is not in the repository). -/
def RTM_PROPOSAL : Nat := 19

def RTM_ADD : Nat := 1

def RTM_DELETE : Nat := 2

def RTP_NONE : Nat := 0

def RTV_MTU : Nat := 1

def RTA_DST : Nat := 1

def RTA_GATEWAY : Nat := 2

def RTA_NETMASK : Nat := 4

def RTA_IFA : Nat := 32

def RTAX_DST : Nat := 0

def RTAX_GATEWAY : Nat := 1

def RTAX_NETMASK : Nat := 2

def RTAX_GENMASK : Nat := 3

def RTAX_IFP : Nat := 4

def RTAX_IFA : Nat := 5

def RTAX_AUTHOR : Nat := 6

def RTAX_BRD : Nat := 7

/-- Modelled from the spec: the four DNS-server extension slots and the
static-route / search-domain extension slots of the routing message
address table (`RTAX_DNS1` .. `RTAX_SEARCH`, from the extended
`net/route.h` that is not in the repository).  The spec fixes only that
these are dedicated slot indices beyond the eight standard ones. -/
def RTAX_DNS1 : Nat := 8

def RTAX_DNS2 : Nat := 9

def RTAX_DNS3 : Nat := 10

def RTAX_DNS4 : Nat := 11

def RTAX_STATIC : Nat := 12

def RTAX_SEARCH : Nat := 13

def RTAX_MAX : Nat := 14

/-- `sizeof(struct rt_msghdr)` on the target platform: a fixed positive
constant; the theorems use it only symbolically. -/
def SIZEOF_RTM : Nat := 96

/-- Modelled from the spec: the size of the fixed static-route blob of
`struct imsg_v4proposal` (the struct lives in `netcfgd.h`, which is not
in the repository; the spec says "a fixed-size static-route blob"). -/
def RTSTATIC_LEN : Nat := 128

/-- Modelled from the spec: the size of the fixed search-domain blob of
`struct imsg_v4proposal` (see `RTSTATIC_LEN`). -/
def RTSEARCH_LEN : Nat := 128

/-- Modelled from the spec: the IPC message kind for an IPv4 proposal
(`IMSG_SEND_V4PROPOSAL`, declared in the missing `netcfgd.h`); only
distinctness from the IPv6 kind matters. -/
def IMSG_SEND_V4PROPOSAL : Nat := 30

/-- Modelled from the spec: the IPC message kind for an IPv6 proposal
(`IMSG_SEND_V6PROPOSAL`, declared in the missing `netcfgd.h`). -/
def IMSG_SEND_V6PROPOSAL : Nat := 31

/-! ## The ROUNDUP alignment macro (src/kroute.c:160-161)

`#define ROUNDUP(a) (((a) & (sizeof(long) - 1)) ? (1 + ((a) | (sizeof(long) - 1))) : (a))`
with `sizeof(long) = 8` on the LP64 target. -/

def ROUNDUP (a : Nat) : Nat :=
  if a &&& 7 ≠ 0 then 1 + (a ||| 7) else a

/-! ## The raw message-framing loop (src/kroute.c:129-155)

The loop walks `buf` from offset 0; at each step it checks
`len < offset + sizeof(u_short) || len < offset + rtm->rtm_msglen` and
calls `fatalx` on violation, otherwise advances by `rtm_msglen`.
`rtm_msglen` is the leading 2-byte member of `struct rt_msghdr`,
decoded little-endian.  The loop is expressed with explicit fuel
because the C loop does not terminate on a zero `rtm_msglen` (claim
C10); per-message decoding is modelled separately below, as it does
not influence framing. -/

def msglenAt (buf : List Nat) (off : Nat) : Nat :=
  buf.getD off 0 + 256 * buf.getD (off + 1) 0

inductive KrLoopOut where
  | done
  | fatalFraming
  | outOfFuel
deriving DecidableEq

def kr_msg_loop (buf : List Nat) : Nat → Nat → KrLoopOut
  | 0, _ => .outOfFuel
  | fuel + 1, offset =>
    if offset < buf.length then
      if buf.length < offset + 2 then .fatalFraming
      else if buf.length < offset + msglenAt buf offset then .fatalFraming
      else kr_msg_loop buf fuel (offset + msglenAt buf offset)
    else .done

/-- Ghost companion of `kr_msg_loop`: the chain of message offsets the
loop frames, i.e. the offsets at which a message header starts.  Used
to state the termination claim about buffers whose framed messages all
declare a positive length. -/
def krMsgOffsets (buf : List Nat) : Nat → Nat → List Nat
  | 0, _ => []
  | fuel + 1, offset =>
    if offset < buf.length then
      offset :: krMsgOffsets buf fuel (offset + msglenAt buf offset)
    else []

/-! ## Address-record walking: get_rtaddrs (src/kroute.c:163-179)

`get_rtaddrs` walks the sockaddr region that follows the message
header.  A `struct sockaddr` starts with the bytes `sa_len` and
`sa_family`; for each slot index `i < RTAX_MAX` whose bit is set in
`addrs` the current cursor position is recorded and the cursor
advances by `ROUNDUP(sa_len)`; a clear bit records a null entry and
does not move the cursor.  `v6` starts at 1 and is cleared as soon as
a recorded record's `sa_family` equals `AF_INET`.  The sockaddr region
is a byte list `sab`; recorded entries are byte offsets into it. -/

def saLenAt (sab : List Nat) (pos : Nat) : Nat := sab.getD pos 0

def saFamilyAt (sab : List Nat) (pos : Nat) : Nat := sab.getD (pos + 1) 0

def grt (addrs : Nat) (sab : List Nat) : Nat → Nat → Nat → Bool → List (Option Nat) × Bool
  | 0, _, _, v6 => ([], v6)
  | n + 1, i, pos, v6 =>
    if addrs &&& (1 <<< i) ≠ 0 then
      let v6n := if saFamilyAt sab pos = AF_INET then false else v6
      let r := grt addrs sab n (i + 1) (pos + ROUNDUP (saLenAt sab pos)) v6n
      (some pos :: r.1, r.2)
    else
      let r := grt addrs sab n (i + 1) pos v6
      (none :: r.1, r.2)

def get_rtaddrs (addrs : Nat) (sab : List Nat) : List (Option Nat) × Bool :=
  grt addrs sab RTAX_MAX 0 0 true

/-! ## Proposal construction (src/kroute.c:181-325)

`forward_v4proposal` / `forward_v6proposal` zero a `struct
imsg_v4proposal`, copy the header scalars, copy the MTU only when its
init bit is set, and copy each address-shaped field only when the
corresponding `rti_info` entry is non-null.  Address bytes sit at
offset 4 of a `sockaddr_in` (`sin_addr`, 4 bytes) respectively offset
8 of a `sockaddr_in6` (`sin6_addr`, 16 bytes); the static-route and
search-domain payloads sit at offset 2 of their records.  A zeroed
field is an all-zero byte string of the copied width. -/

structure RtmHdrIn where
  version : Nat
  rtype : Nat
  hdrlen : Nat
  index : Nat
  tableid : Nat
  priority : Nat
  addrs : Nat
  flags : Nat
  seq : Nat
  inits : Nat
  rmx_mtu : Nat
deriving DecidableEq

structure Proposal where
  addrs : Nat
  inits : Nat
  flags : Nat
  xid : Nat
  index : Nat
  source : Nat
  mtu : Nat
  rtstatic : List Nat
  rtsearch : List Nat
  rtsearch_encoded : Nat
  gateway : List Nat
  ifa : List Nat
  netmask : List Nat
  dns1 : List Nat
  dns2 : List Nat
  dns3 : List Nat
  dns4 : List Nat
deriving DecidableEq

def extractBytes (sab : List Nat) (pos n : Nat) : List Nat :=
  (List.range n).map fun k => sab.getD (pos + k) 0

/-- Embeds the repeated
`if (rti_info[X] != NULL) memcpy(&proposal.f, &sa_in->sin_addr, 4)`
blocks of `forward_v4proposal`: the field keeps its `memset` zeroes
when the slot is absent, otherwise it receives the 4 `sin_addr` bytes
of the record at the recorded offset. -/
def v4AddrOrZero (rti : List (Option Nat)) (sab : List Nat) (slot : Nat) : List Nat :=
  match rti.getD slot none with
  | some p => extractBytes sab (p + 4) 4
  | none => List.replicate 4 0

/-- Embeds the repeated
`if (rti_info[X] != NULL) memcpy(&proposal.f, &sa_in6->sin6_addr, 16)`
blocks of `forward_v6proposal`. -/
def v6AddrOrZero (rti : List (Option Nat)) (sab : List Nat) (slot : Nat) : List Nat :=
  match rti.getD slot none with
  | some p => extractBytes sab (p + 8) 16
  | none => List.replicate 16 0

def forward_v4proposal (rtm : RtmHdrIn) (rti : List (Option Nat)) (sab : List Nat) :
    Proposal :=
  { addrs := rtm.addrs
    inits := rtm.inits
    flags := rtm.flags
    xid := rtm.seq
    index := rtm.index
    source := rtm.priority
    mtu := if rtm.inits &&& RTV_MTU ≠ 0 then rtm.rmx_mtu else 0
    rtstatic :=
      match rti.getD RTAX_STATIC none with
      | some p => extractBytes sab (p + 2) RTSTATIC_LEN
      | none => List.replicate RTSTATIC_LEN 0
    rtsearch :=
      match rti.getD RTAX_SEARCH none with
      | some p => extractBytes sab (p + 2) RTSEARCH_LEN
      | none => List.replicate RTSEARCH_LEN 0
    rtsearch_encoded :=
      match rti.getD RTAX_SEARCH none with
      | some p => if saFamilyAt sab p = AF_INET6 then 1 else 0
      | none => 0
    gateway := v4AddrOrZero rti sab RTAX_GATEWAY
    ifa := v4AddrOrZero rti sab RTAX_IFA
    netmask := v4AddrOrZero rti sab RTAX_NETMASK
    dns1 := v4AddrOrZero rti sab RTAX_DNS1
    dns2 := v4AddrOrZero rti sab RTAX_DNS2
    dns3 := v4AddrOrZero rti sab RTAX_DNS3
    dns4 := v4AddrOrZero rti sab RTAX_DNS4 }

def forward_v6proposal (rtm : RtmHdrIn) (rti : List (Option Nat)) (sab : List Nat) :
    Proposal :=
  { addrs := rtm.addrs
    inits := rtm.inits
    flags := rtm.flags
    xid := rtm.seq
    index := rtm.index
    source := rtm.priority
    mtu := if rtm.inits &&& RTV_MTU ≠ 0 then rtm.rmx_mtu else 0
    rtstatic :=
      match rti.getD RTAX_STATIC none with
      | some p => extractBytes sab (p + 2) RTSTATIC_LEN
      | none => List.replicate RTSTATIC_LEN 0
    rtsearch :=
      match rti.getD RTAX_SEARCH none with
      | some p => extractBytes sab (p + 2) RTSEARCH_LEN
      | none => List.replicate RTSEARCH_LEN 0
    rtsearch_encoded :=
      match rti.getD RTAX_SEARCH none with
      | some p => if saFamilyAt sab p = AF_INET6 then 1 else 0
      | none => 0
    gateway := v6AddrOrZero rti sab RTAX_GATEWAY
    ifa := v6AddrOrZero rti sab RTAX_IFA
    netmask := v6AddrOrZero rti sab RTAX_NETMASK
    dns1 := v6AddrOrZero rti sab RTAX_DNS1
    dns2 := v6AddrOrZero rti sab RTAX_DNS2
    dns3 := v6AddrOrZero rti sab RTAX_DNS3
    dns4 := v6AddrOrZero rti sab RTAX_DNS4 }

/-- Per-message body of `kr_dispatch_msg` (src/kroute.c:136-154): skip
messages whose version does not match, act only on `RTM_PROPOSAL`,
classify the family via `get_rtaddrs`, and forward the proposal with
the family-specific IPC message kind. -/
def kr_process_msg (rtm : RtmHdrIn) (sab : List Nat) : Option (Nat × Proposal) :=
  if rtm.version ≠ RTM_VERSION then none
  else if rtm.rtype = RTM_PROPOSAL then
    let r := get_rtaddrs rtm.addrs sab
    if r.2 then some (IMSG_SEND_V6PROPOSAL, forward_v6proposal rtm r.1 sab)
    else some (IMSG_SEND_V4PROPOSAL, forward_v4proposal rtm r.1 sab)
  else none

/-! ## Route-message encoding (src/netcfgd_v4.c)

`netcfgd_add_v4route` / `netcfgd_delete_v4route` build a
`struct rt_msghdr` plus an iovec array and issue one `writev`.  Since
`iov[0].iov_base` points at the header, the bytes flushed by `writev`
contain the final accumulated `rtm_msglen`.  The scatter-write is
modelled as the structured header plus the ordered list of payload
chunks; `flushedSize` is the total byte count `writev` transfers. -/

structure RtmHdrOut where
  msglen : Nat
  version : Nat
  rtype : Nat
  priority : Nat
  tableid : Nat
  addrs : Nat
  flags : Nat
  seq : Nat
  index : Nat
deriving DecidableEq

structure RouteWrite where
  hdr : RtmHdrOut
  payloads : List (List Nat)
deriving DecidableEq

def flushedSize (w : RouteWrite) : Nat :=
  SIZEOF_RTM + (w.payloads.map List.length).sum

structure ImsgAddV4Route where
  rdomain : Nat
  addrs : Nat
  flags : Nat
  dest : List Nat
  gateway : List Nat
  netmask : List Nat
  ifa : List Nat
deriving DecidableEq

structure ImsgDeleteV4Route where
  rdomain : Nat
  index : Nat
  dest : List Nat
  gateway : List Nat
  netmask : List Nat
deriving DecidableEq

/-- Embeds one conditional iovec attachment of `netcfgd_add_v4route`
(src/netcfgd_v4.c:156-178): when the guard bit is set, append the
payload chunk to the iovec list and add its size to `rtm_msglen`. -/
def attachIf (cond : Bool) (payload : List Nat) (acc : List (List Nat) × Nat) :
    List (List Nat) × Nat :=
  if cond then (acc.1 ++ [payload], acc.2 + payload.length) else acc

/-- `netcfgd_add_v4route` (src/netcfgd_v4.c:131-182): header with
version/add/none-priority, `rtm_msglen` starting at `sizeof(rtm)`,
table id, presence bitmap and flags from the request; then the four
conditional attachments in the fixed order destination, gateway,
netmask, interface address. -/
def netcfgd_add_v4route (av4 : ImsgAddV4Route) : RouteWrite :=
  let acc0 : List (List Nat) × Nat := ([], SIZEOF_RTM)
  let acc1 := attachIf (av4.addrs &&& RTA_DST != 0) av4.dest acc0
  let acc2 := attachIf (av4.addrs &&& RTA_GATEWAY != 0) av4.gateway acc1
  let acc3 := attachIf (av4.addrs &&& RTA_NETMASK != 0) av4.netmask acc2
  let acc4 := attachIf (av4.addrs &&& RTA_IFA != 0) av4.ifa acc3
  { hdr :=
      { msglen := acc4.2
        version := RTM_VERSION
        rtype := RTM_ADD
        priority := RTP_NONE
        tableid := av4.rdomain
        addrs := av4.addrs
        flags := av4.flags
        seq := 0
        index := 0 }
    payloads := acc4.1 }

/-- `netcfgd_delete_v4route` (src/netcfgd_v4.c:92-129): the header is
`memset` to zero, so `rtm_msglen` starts at 0 and accumulates only the
three payload sizes; destination, gateway and netmask are attached
unconditionally, in that order.  `seqno` stands for the static
monotonically increasing sequence counter. -/
def netcfgd_delete_v4route (seqno : Nat) (dv4 : ImsgDeleteV4Route) : RouteWrite :=
  { hdr :=
      { msglen := dv4.dest.length + dv4.gateway.length + dv4.netmask.length
        version := RTM_VERSION
        rtype := RTM_DELETE
        priority := 0
        tableid := dv4.rdomain
        addrs := RTA_DST ||| RTA_GATEWAY ||| RTA_NETMASK
        flags := 0
        seq := seqno
        index := dv4.index }
    payloads := [dv4.dest, dv4.gateway, dv4.netmask] }

/-! ## Address-change encoding and logging conventions (src/netcfgd_v4.c)

The four operations end in a kernel call whose integer return value is
compared against -1.  The `_warns` functions record, for a given
return value, whether the operation emits its `log_warn`:
* `netcfgd_add_v4route` logs when `writev(...) != -1` (success);
* `netcfgd_delete_v4route`, `netcfgd_add_v4address` and
  `netcfgd_delete_v4address` log when the call `== -1` (failure). -/

structure Ifaliasreq where
  ifra_name : String
  ifra_addr : List Nat
  ifra_mask : List Nat
deriving DecidableEq

structure ImsgAddV4Address where
  name : String
  addr : List Nat
  mask : List Nat
deriving DecidableEq

structure ImsgDeleteV4Address where
  name : String
  addr : List Nat
deriving DecidableEq

/-- `netcfgd_add_v4address` (src/netcfgd_v4.c:66-90): zeroed
`ifaliasreq` receives the interface name, the address and the netmask
(the broadcast address is intentionally left for the kernel). -/
def netcfgd_add_v4address (av4 : ImsgAddV4Address) : Ifaliasreq :=
  { ifra_name := av4.name, ifra_addr := av4.addr, ifra_mask := av4.mask }

/-- `netcfgd_delete_v4address` (src/netcfgd_v4.c:47-64): zeroed
`ifaliasreq` receives the interface name and the address; the mask
keeps its `memset` zeroes. -/
def netcfgd_delete_v4address (dv4 : ImsgDeleteV4Address) : Ifaliasreq :=
  { ifra_name := dv4.name, ifra_addr := dv4.addr, ifra_mask := [] }

def netcfgd_add_v4route_warns (ret : Int) : Bool := ret != -1

def netcfgd_delete_v4route_warns (ret : Int) : Bool := ret == -1

def netcfgd_add_v4address_warns (ret : Int) : Bool := ret == -1

def netcfgd_delete_v4address_warns (ret : Int) : Bool := ret == -1

/-! ## Channel read dispatch (src/kroute.c:115-127, src/newd.c:335-441)

Each handler's reaction to the result of its read call.
`kr_dispatch_msg` does a raw `read(2)`: -1 with `EAGAIN`/`EINTR`
returns and waits for the next readiness event; -1 otherwise logs and
calls `event_loopexit`; 0 bytes logs "routing socket closed" and calls
`event_loopexit`; a positive count proceeds to the decode loop.
`main_dispatch_frontend` / `main_dispatch_engine` call `imsg_read`:
-1 with `errno != EAGAIN` is `fatal` (the library retries `EINTR`
internally, so only `EAGAIN` surfaces as a would-block -1); 0 marks
the pipe dead (`shut`), which after draining removes the event handler
and calls `event_loopexit`; otherwise the handler drains messages and
re-registers. -/

inductive RawReadResult where
  | bytes (n : Nat)
  | errAgain
  | errIntr
  | errOther
deriving DecidableEq

inductive ImsgReadResult where
  | ok (n : Nat)
  | errAgain
  | errOther
deriving DecidableEq

inductive DispatchOutcome where
  | processBuffer
  | waitNext
  | orderlyExit
  | fatalExit
deriving DecidableEq

def kr_dispatch_read : RawReadResult → DispatchOutcome
  | .errAgain => .waitNext
  | .errIntr => .waitNext
  | .errOther => .orderlyExit
  | .bytes 0 => .orderlyExit
  | .bytes (_ + 1) => .processBuffer

def main_dispatch_frontend_read : ImsgReadResult → DispatchOutcome
  | .ok 0 => .orderlyExit
  | .ok (_ + 1) => .processBuffer
  | .errAgain => .processBuffer
  | .errOther => .fatalExit

def main_dispatch_engine_read : ImsgReadResult → DispatchOutcome
  | .ok 0 => .orderlyExit
  | .ok (_ + 1) => .processBuffer
  | .errAgain => .processBuffer
  | .errOther => .fatalExit

/-! ## Configuration merge (src/newd.c:583-607, src/newd.h:56-84)

`merge_config(conf, xconf)` copies `opts`, `yesno`, `integer` and
`global_text` from the new configuration, empties and frees the old
group list, then repeatedly takes the head of the new list and inserts
it at the head of the retained list (`LIST_INSERT_HEAD`), and frees the
new configuration shell. -/

/-- `struct group` of src/newd.h:56-67 (named `NewdGroup` here because
`Group` is taken by the mathematics library). -/
structure NewdGroup where
  name : String
  yesno : Int
  group_yesno : Int
  integer : Int
  group_integer : Int
  v4_bits : Int
  group_v4_bits : Int
  v6_bits : Int
  group_v6_bits : Int
  v4address : Nat
  group_v4address : Nat
  v6address : Nat
  group_v6address : Nat
  text : String
  group_text : String
deriving DecidableEq

structure NewdConf where
  csock : String
  opts : Nat
  yesno : Int
  global_yesno : Int
  integer : Int
  global_integer : Int
  v4_bits : Int
  global_v4_bits : Int
  v6_bits : Int
  global_v6_bits : Int
  v4address : Nat
  global_v4address : Nat
  v6address : Nat
  global_v6address : Nat
  text : String
  global_text : String
  group_list : List NewdGroup
deriving DecidableEq

/-- The second `while` loop of `merge_config`: take the head of the
source list, insert it at the head of the destination list. -/
def moveGroupsToHead : List NewdGroup → List NewdGroup → List NewdGroup
  | [], dst => dst
  | g :: rest, dst => moveGroupsToHead rest (g :: dst)

def merge_config (conf xconf : NewdConf) : NewdConf :=
  { conf with
    opts := xconf.opts
    yesno := xconf.yesno
    integer := xconf.integer
    global_text := xconf.global_text
    group_list := moveGroupsToHead xconf.group_list [] }

/-! ## Spec-side definition and concrete sample inputs -/

/-- Spec-side definition (design document §4.3, §8.5), for comparison
with `netcfgd_add_v4route`: the payloads attached to an add-route
message are exactly those among destination, gateway, netmask,
interface address whose bits are set in the request's presence bitmap,
in that fixed order. -/
def specAddRoutePayloads (av4 : ImsgAddV4Route) : List (List Nat) :=
  (if av4.addrs &&& RTA_DST != 0 then [av4.dest] else []) ++
    (if av4.addrs &&& RTA_GATEWAY != 0 then [av4.gateway] else []) ++
    (if av4.addrs &&& RTA_NETMASK != 0 then [av4.netmask] else []) ++
    (if av4.addrs &&& RTA_IFA != 0 then [av4.ifa] else [])

/-- Sample proposal header: matching version, proposal type, no
address bits, no init bits. -/
def rtmSample : RtmHdrIn :=
  { version := RTM_VERSION
    rtype := RTM_PROPOSAL
    hdrlen := 0
    index := 3
    tableid := 0
    priority := 7
    addrs := 0
    flags := 0
    seq := 11
    inits := 0
    rmx_mtu := 1500 }

/-- Sample delete-route request with three 16-byte sockaddr payloads
(`sizeof(struct sockaddr_in) = 16`). -/
def dv4Sample : ImsgDeleteV4Route :=
  { rdomain := 0
    index := 1
    dest := List.replicate 16 1
    gateway := List.replicate 16 2
    netmask := List.replicate 16 3 }

/-- Sample retained configuration for the merge theorems. -/
def confOldSample : NewdConf :=
  { csock := "sockA"
    opts := 1
    yesno := 0
    global_yesno := 0
    integer := 10
    global_integer := 20
    v4_bits := 8
    global_v4_bits := 8
    v6_bits := 64
    global_v6_bits := 64
    v4address := 1
    global_v4address := 2
    v6address := 3
    global_v6address := 4
    text := "oldtext"
    global_text := "oldglobal"
    group_list := [] }

/-- Sample freshly parsed configuration for the merge theorems; every
scalar differs from `confOldSample`. -/
def confNewSample : NewdConf :=
  { csock := "sockB"
    opts := 2
    yesno := 1
    global_yesno := 1
    integer := 11
    global_integer := 21
    v4_bits := 9
    global_v4_bits := 10
    v6_bits := 65
    global_v6_bits := 66
    v4address := 5
    global_v4address := 6
    v6address := 7
    global_v6address := 8
    text := "newtext"
    global_text := "newglobal"
    group_list := [] }

/-! ## Helper lemmas -/

set_option maxRecDepth 4096 in
/-- Arithmetic characterization of the `ROUNDUP` macro on byte-sized
inputs (`sa_len` is a `u_char`): an aligned value is unchanged, an
unaligned value becomes the next multiple of the word size. -/
theorem roundup_char :
    ∀ a < 256, ROUNDUP a = if a % 8 = 0 then a else 8 * (a / 8 + 1) := by
  decide

/-- If every message offset the framing loop visits carries a positive
declared length, fuel `buf.length + 1 - offset` can never run out. -/
theorem kr_msg_loop_no_fuel_exhaustion (buf : List Nat) :
    ∀ fuel offset, buf.length - offset < fuel →
      (∀ off ∈ krMsgOffsets buf fuel offset, 1 ≤ msglenAt buf off) →
      kr_msg_loop buf fuel offset ≠ KrLoopOut.outOfFuel := by
  intro fuel
  induction fuel with
  | zero => intro offset h; omega
  | succ fuel ih =>
    intro offset hlt hpos
    unfold kr_msg_loop
    by_cases hoff : offset < buf.length
    · rw [if_pos hoff]
      by_cases h2 : buf.length < offset + 2
      · simp [h2]
      · rw [if_neg h2]
        by_cases h3 : buf.length < offset + msglenAt buf offset
        · simp [h3]
        · rw [if_neg h3]
          have hm : 1 ≤ msglenAt buf offset := by
            apply hpos
            unfold krMsgOffsets
            rw [if_pos hoff]
            exact List.mem_cons_self _ _
          apply ih
          · omega
          · intro off hmem
            apply hpos
            unfold krMsgOffsets
            rw [if_pos hoff]
            exact List.mem_cons_of_mem _ hmem
    · rw [if_neg hoff]
      simp

/-- The `v6` result of the slot walk is cleared exactly when it started
cleared or some recorded record's family byte equals `AF_INET`. -/
theorem grt_snd_false_iff (addrs : Nat) (sab : List Nat) :
    ∀ n i pos v6, ((grt addrs sab n i pos v6).2 = false ↔
      (v6 = false ∨ ∃ (j : Nat) (p : Nat),
        ((grt addrs sab n i pos v6).1)[j]? = some (some p) ∧
        saFamilyAt sab p = AF_INET)) := by
  intro n
  induction n with
  | zero =>
    intro i pos v6
    simp [grt]
  | succ n ih =>
    intro i pos v6
    by_cases hb : addrs &&& (1 <<< i) ≠ 0
    · by_cases hf : saFamilyAt sab pos = AF_INET
      · simp only [grt, if_pos hb, if_pos hf]
        constructor
        · intro _
          exact Or.inr ⟨0, pos, by simp, hf⟩
        · intro _
          exact (ih (i + 1) (pos + ROUNDUP (saLenAt sab pos)) false).mpr (Or.inl rfl)
      · simp only [grt, if_pos hb, if_neg hf]
        rw [ih (i + 1) (pos + ROUNDUP (saLenAt sab pos)) v6]
        constructor
        · rintro (hv | ⟨j, p, hj, hp⟩)
          · exact Or.inl hv
          · exact Or.inr ⟨j + 1, p, by simpa using hj, hp⟩
        · rintro (hv | ⟨j, p, hj, hp⟩)
          · exact Or.inl hv
          · cases j with
            | zero =>
              have hpp : pos = p := by simpa using hj
              rw [← hpp] at hp
              exact absurd hp hf
            | succ j =>
              exact Or.inr ⟨j, p, by simpa using hj, hp⟩
    · simp only [grt, if_neg hb]
      rw [ih (i + 1) pos v6]
      constructor
      · rintro (hv | ⟨j, p, hj, hp⟩)
        · exact Or.inl hv
        · exact Or.inr ⟨j + 1, p, by simpa using hj, hp⟩
      · rintro (hv | ⟨j, p, hj, hp⟩)
        · exact Or.inl hv
        · cases j with
          | zero => simp at hj
          | succ j => exact Or.inr ⟨j, p, by simpa using hj, hp⟩

/-- A clear presence bit records a null slot entry. -/
theorem grt_fst_getElem_none (addrs : Nat) (sab : List Nat) :
    ∀ n j i pos v6, j < n → addrs &&& (1 <<< (i + j)) = 0 →
      ((grt addrs sab n i pos v6).1)[j]? = some none := by
  intro n
  induction n with
  | zero => intro j i pos v6 h _; omega
  | succ n ih =>
    intro j i pos v6 hj hbit
    cases j with
    | zero =>
      have hb : ¬ addrs &&& (1 <<< i) ≠ 0 := by simpa using hbit
      simp [grt, hb]
    | succ j =>
      have hbit' : addrs &&& (1 <<< (i + 1 + j)) = 0 := by
        have he : i + 1 + j = i + (j + 1) := by omega
        rw [he]
        exact hbit
      by_cases hb : addrs &&& (1 <<< i) ≠ 0
      · have hr := ih j (i + 1) (pos + ROUNDUP (saLenAt sab pos))
          (if saFamilyAt sab pos = AF_INET then false else v6) (by omega) hbit'
        simp only [grt, if_pos hb]
        simpa using hr
      · have hr := ih j (i + 1) pos v6 (by omega) hbit'
        simp only [grt, if_neg hb]
        simpa using hr

/-- A set presence bit records the cursor position of its record. -/
theorem grt_fst_getElem_some (addrs : Nat) (sab : List Nat) :
    ∀ n j i pos v6, j < n → addrs &&& (1 <<< (i + j)) ≠ 0 →
      ∃ p, ((grt addrs sab n i pos v6).1)[j]? = some (some p) := by
  intro n
  induction n with
  | zero => intro j i pos v6 h _; omega
  | succ n ih =>
    intro j i pos v6 hj hbit
    cases j with
    | zero =>
      have hb : addrs &&& (1 <<< i) ≠ 0 := by simpa using hbit
      exact ⟨pos, by simp [grt, hb]⟩
    | succ j =>
      have hbit' : addrs &&& (1 <<< (i + 1 + j)) ≠ 0 := by
        have he : i + 1 + j = i + (j + 1) := by omega
        rw [he]
        exact hbit
      by_cases hb : addrs &&& (1 <<< i) ≠ 0
      · obtain ⟨p, hp⟩ := ih j (i + 1) (pos + ROUNDUP (saLenAt sab pos))
          (if saFamilyAt sab pos = AF_INET then false else v6) (by omega) hbit'
        exact ⟨p, by simp only [grt, if_pos hb]; simpa using hp⟩
      · obtain ⟨p, hp⟩ := ih j (i + 1) pos v6 (by omega) hbit'
        exact ⟨p, by simp only [grt, if_neg hb]; simpa using hp⟩

/-- Composite of `grt_fst_getElem_none` at the `get_rtaddrs` entry
point, phrased through the array access the forwarding code uses. -/
theorem get_rtaddrs_getD_none (addrs : Nat) (sab : List Nat) (s : Nat)
    (hs : s < RTAX_MAX) (hbit : addrs &&& (1 <<< s) = 0) :
    (((get_rtaddrs addrs sab).1)[s]?).getD none = none := by
  have h := grt_fst_getElem_none addrs sab RTAX_MAX s 0 0 true hs (by simpa using hbit)
  rw [get_rtaddrs, h]
  rfl

/-! ## Claim theorems -/

/-- C1: at any offset the decode loop enters, if fewer than
`sizeof(u_short)` bytes remain or the message's declared total length
`rtm_msglen` extends past the bytes actually read, the loop ends in
the fatal framing error (`fatalx`), and in particular never skips the
message and continues; the short-circuit check means the declared
length is consulted only when its two bytes lie inside the buffer. -/
theorem claim1_truncated_message_fatal (buf : List Nat) (offset fuel : Nat)
    (hoff : offset < buf.length)
    (htr : buf.length < offset + 2 ∨ buf.length < offset + msglenAt buf offset) :
    kr_msg_loop buf (fuel + 1) offset = KrLoopOut.fatalFraming := by
  unfold kr_msg_loop
  rw [if_pos hoff]
  rcases htr with h | h
  · rw [if_pos h]
  · by_cases h2 : buf.length < offset + 2
    · rw [if_pos h2]
    · rw [if_neg h2, if_pos h]

theorem claim1_truncated_message_fatal_witness :
    kr_msg_loop [7, 0, 9] 5 0 = KrLoopOut.fatalFraming :=
  claim1_truncated_message_fatal [7, 0, 9] 0 4 (by decide) (Or.inr (by decide))

/-- C10: the decode loop terminates (fuel `buf.length + 1` is never
exhausted) whenever every framed message declares a strictly positive
total length; and on the concrete buffer `[0, 0]`, whose single
message declares length zero, the offset never advances and the loop
runs forever (every fuel value is exhausted). -/
theorem claim10_loop_termination :
    (∀ buf : List Nat,
        (∀ off ∈ krMsgOffsets buf (buf.length + 1) 0, 1 ≤ msglenAt buf off) →
        kr_msg_loop buf (buf.length + 1) 0 ≠ KrLoopOut.outOfFuel)
    ∧ (∀ fuel, kr_msg_loop [0, 0] fuel 0 = KrLoopOut.outOfFuel) := by
  constructor
  · intro buf h
    exact kr_msg_loop_no_fuel_exhaustion buf (buf.length + 1) 0 (by omega) h
  · intro fuel
    induction fuel with
    | zero => rfl
    | succ fuel ih =>
      unfold kr_msg_loop
      simpa [msglenAt] using ih

theorem claim10_loop_termination_witness :
    kr_msg_loop [2, 1] ([2, 1].length + 1) 0 ≠ KrLoopOut.outOfFuel :=
  claim10_loop_termination.1 [2, 1] (by decide)

/-- C2: for a decoded kernel message (matching version, proposal
type), the family flag computed by `get_rtaddrs` defaults to IPv6
(`true`) and is downgraded to IPv4 (`false`) precisely when some
recorded slot's embedded family byte equals `AF_INET`; a slot entry is
recorded precisely when its presence bit is set; and the message is
forwarded as a proposal tagged with the family-specific message
kind. -/
theorem claim2_family_classification (rtm : RtmHdrIn) (sab : List Nat)
    (hv : rtm.version = RTM_VERSION) (ht : rtm.rtype = RTM_PROPOSAL) :
    ((get_rtaddrs rtm.addrs sab).2 = false ↔
      ∃ (j : Nat) (p : Nat), ((get_rtaddrs rtm.addrs sab).1)[j]? = some (some p) ∧
        saFamilyAt sab p = AF_INET)
    ∧ (∀ j, j < RTAX_MAX →
        ((∃ p : Nat, ((get_rtaddrs rtm.addrs sab).1)[j]? = some (some p)) ↔
          rtm.addrs &&& (1 <<< j) ≠ 0))
    ∧ kr_process_msg rtm sab =
        some (if (get_rtaddrs rtm.addrs sab).2 then IMSG_SEND_V6PROPOSAL
              else IMSG_SEND_V4PROPOSAL,
          if (get_rtaddrs rtm.addrs sab).2 then
            forward_v6proposal rtm (get_rtaddrs rtm.addrs sab).1 sab
          else forward_v4proposal rtm (get_rtaddrs rtm.addrs sab).1 sab) := by
  refine ⟨?_, ?_, ?_⟩
  · have h := grt_snd_false_iff rtm.addrs sab RTAX_MAX 0 0 true
    simpa [get_rtaddrs] using h
  · intro j hj
    constructor
    · rintro ⟨p, hp⟩
      intro hb0
      have hn := grt_fst_getElem_none rtm.addrs sab RTAX_MAX j 0 0 true hj
        (by simpa using hb0)
      rw [get_rtaddrs] at hp
      rw [hn] at hp
      simp at hp
    · intro hb
      obtain ⟨p, hp⟩ := grt_fst_getElem_some rtm.addrs sab RTAX_MAX j 0 0 true hj
        (by simpa using hb)
      exact ⟨p, by simpa [get_rtaddrs] using hp⟩
  · have hv2 : ¬ rtm.version ≠ RTM_VERSION := by simp [hv]
    simp only [kr_process_msg, if_neg hv2, if_pos ht]
    cases hr : (get_rtaddrs rtm.addrs sab).2 <;> simp [hr]

theorem claim2_family_classification_witness :
    (((get_rtaddrs rtmSample.addrs []).2 = false ↔
      ∃ (j : Nat) (p : Nat), ((get_rtaddrs rtmSample.addrs []).1)[j]? = some (some p) ∧
        saFamilyAt [] p = AF_INET)
    ∧ (∀ j, j < RTAX_MAX →
        ((∃ p : Nat, ((get_rtaddrs rtmSample.addrs []).1)[j]? = some (some p)) ↔
          rtmSample.addrs &&& (1 <<< j) ≠ 0))
    ∧ kr_process_msg rtmSample [] =
        some (if (get_rtaddrs rtmSample.addrs []).2 then IMSG_SEND_V6PROPOSAL
              else IMSG_SEND_V4PROPOSAL,
          if (get_rtaddrs rtmSample.addrs []).2 then
            forward_v6proposal rtmSample (get_rtaddrs rtmSample.addrs []).1 []
          else forward_v4proposal rtmSample (get_rtaddrs rtmSample.addrs []).1 [])) :=
  claim2_family_classification rtmSample [] (by decide) (by decide)

/-- C4: when a slot's presence bit is set, the walk records the slot
at the current cursor and continues at the cursor advanced by exactly
`ROUNDUP(sa_len)`; and for every byte-sized declared length, `ROUNDUP`
is the identity on multiples of the word size (`sizeof(long) = 8`) and
otherwise the smallest larger multiple of the word size. -/
theorem claim4_cursor_alignment (addrs : Nat) (sab : List Nat) (n i pos : Nat)
    (v6 : Bool) (hbit : addrs &&& (1 <<< i) ≠ 0) :
    ((grt addrs sab (n + 1) i pos v6).1 =
      some pos :: (grt addrs sab n (i + 1) (pos + ROUNDUP (saLenAt sab pos))
        (if saFamilyAt sab pos = AF_INET then false else v6)).1)
    ∧ (∀ a, a < 256 → a % 8 = 0 → ROUNDUP a = a)
    ∧ (∀ a, a < 256 → a % 8 ≠ 0 →
        ROUNDUP a % 8 = 0 ∧ a < ROUNDUP a ∧ ∀ m, a < m → m % 8 = 0 → ROUNDUP a ≤ m) := by
  refine ⟨by simp [grt, hbit], fun a ha h8 => ?_, fun a ha h8 => ?_⟩
  · have hc := roundup_char a ha
    rw [if_pos h8] at hc
    exact hc
  · have hc := roundup_char a ha
    rw [if_neg h8] at hc
    refine ⟨by omega, by omega, fun m hm hm8 => by omega⟩

theorem claim4_cursor_alignment_witness :
    (((grt 1 [9] 1 0 0 true).1 =
      some 0 :: (grt 1 [9] 0 1 (0 + ROUNDUP (saLenAt [9] 0))
        (if saFamilyAt [9] 0 = AF_INET then false else true)).1)
    ∧ (∀ a, a < 256 → a % 8 = 0 → ROUNDUP a = a)
    ∧ (∀ a, a < 256 → a % 8 ≠ 0 →
        ROUNDUP a % 8 = 0 ∧ a < ROUNDUP a ∧ ∀ m, a < m → m % 8 = 0 → ROUNDUP a ≤ m)) :=
  claim4_cursor_alignment 1 [9] 0 0 0 true (by decide)

/-- C3: in both emitted proposal variants, every address-shaped field
whose presence bit is clear keeps its `memset` zero value (an all-zero
byte string of the copied width), and the MTU is zero whenever the
`RTV_MTU` init bit is clear, regardless of the `rmx_mtu` bytes carried
by the source header. -/
theorem claim3_absent_fields_zero (rtm : RtmHdrIn) (sab : List Nat) :
    (rtm.inits &&& RTV_MTU = 0 →
      (forward_v4proposal rtm (get_rtaddrs rtm.addrs sab).1 sab).mtu = 0 ∧
      (forward_v6proposal rtm (get_rtaddrs rtm.addrs sab).1 sab).mtu = 0)
    ∧ (rtm.addrs &&& (1 <<< RTAX_GATEWAY) = 0 →
      (forward_v4proposal rtm (get_rtaddrs rtm.addrs sab).1 sab).gateway =
        List.replicate 4 0 ∧
      (forward_v6proposal rtm (get_rtaddrs rtm.addrs sab).1 sab).gateway =
        List.replicate 16 0)
    ∧ (rtm.addrs &&& (1 <<< RTAX_IFA) = 0 →
      (forward_v4proposal rtm (get_rtaddrs rtm.addrs sab).1 sab).ifa =
        List.replicate 4 0 ∧
      (forward_v6proposal rtm (get_rtaddrs rtm.addrs sab).1 sab).ifa =
        List.replicate 16 0)
    ∧ (rtm.addrs &&& (1 <<< RTAX_NETMASK) = 0 →
      (forward_v4proposal rtm (get_rtaddrs rtm.addrs sab).1 sab).netmask =
        List.replicate 4 0 ∧
      (forward_v6proposal rtm (get_rtaddrs rtm.addrs sab).1 sab).netmask =
        List.replicate 16 0)
    ∧ (rtm.addrs &&& (1 <<< RTAX_DNS1) = 0 →
      (forward_v4proposal rtm (get_rtaddrs rtm.addrs sab).1 sab).dns1 =
        List.replicate 4 0 ∧
      (forward_v6proposal rtm (get_rtaddrs rtm.addrs sab).1 sab).dns1 =
        List.replicate 16 0)
    ∧ (rtm.addrs &&& (1 <<< RTAX_DNS2) = 0 →
      (forward_v4proposal rtm (get_rtaddrs rtm.addrs sab).1 sab).dns2 =
        List.replicate 4 0 ∧
      (forward_v6proposal rtm (get_rtaddrs rtm.addrs sab).1 sab).dns2 =
        List.replicate 16 0)
    ∧ (rtm.addrs &&& (1 <<< RTAX_DNS3) = 0 →
      (forward_v4proposal rtm (get_rtaddrs rtm.addrs sab).1 sab).dns3 =
        List.replicate 4 0 ∧
      (forward_v6proposal rtm (get_rtaddrs rtm.addrs sab).1 sab).dns3 =
        List.replicate 16 0)
    ∧ (rtm.addrs &&& (1 <<< RTAX_DNS4) = 0 →
      (forward_v4proposal rtm (get_rtaddrs rtm.addrs sab).1 sab).dns4 =
        List.replicate 4 0 ∧
      (forward_v6proposal rtm (get_rtaddrs rtm.addrs sab).1 sab).dns4 =
        List.replicate 16 0)
    ∧ (rtm.addrs &&& (1 <<< RTAX_STATIC) = 0 →
      (forward_v4proposal rtm (get_rtaddrs rtm.addrs sab).1 sab).rtstatic =
        List.replicate RTSTATIC_LEN 0 ∧
      (forward_v6proposal rtm (get_rtaddrs rtm.addrs sab).1 sab).rtstatic =
        List.replicate RTSTATIC_LEN 0)
    ∧ (rtm.addrs &&& (1 <<< RTAX_SEARCH) = 0 →
      (forward_v4proposal rtm (get_rtaddrs rtm.addrs sab).1 sab).rtsearch =
        List.replicate RTSEARCH_LEN 0 ∧
      (forward_v6proposal rtm (get_rtaddrs rtm.addrs sab).1 sab).rtsearch =
        List.replicate RTSEARCH_LEN 0 ∧
      (forward_v4proposal rtm (get_rtaddrs rtm.addrs sab).1 sab).rtsearch_encoded = 0 ∧
      (forward_v6proposal rtm (get_rtaddrs rtm.addrs sab).1 sab).rtsearch_encoded = 0) := by
  refine ⟨fun h => ?_, fun h => ?_, fun h => ?_, fun h => ?_, fun h => ?_,
    fun h => ?_, fun h => ?_, fun h => ?_, fun h => ?_, fun h => ?_⟩
  · exact ⟨by simp [forward_v4proposal, h], by simp [forward_v6proposal, h]⟩
  · have hn := get_rtaddrs_getD_none rtm.addrs sab RTAX_GATEWAY (by decide) h
    exact ⟨by simp [forward_v4proposal, v4AddrOrZero, hn],
      by simp [forward_v6proposal, v6AddrOrZero, hn]⟩
  · have hn := get_rtaddrs_getD_none rtm.addrs sab RTAX_IFA (by decide) h
    exact ⟨by simp [forward_v4proposal, v4AddrOrZero, hn],
      by simp [forward_v6proposal, v6AddrOrZero, hn]⟩
  · have hn := get_rtaddrs_getD_none rtm.addrs sab RTAX_NETMASK (by decide) h
    exact ⟨by simp [forward_v4proposal, v4AddrOrZero, hn],
      by simp [forward_v6proposal, v6AddrOrZero, hn]⟩
  · have hn := get_rtaddrs_getD_none rtm.addrs sab RTAX_DNS1 (by decide) h
    exact ⟨by simp [forward_v4proposal, v4AddrOrZero, hn],
      by simp [forward_v6proposal, v6AddrOrZero, hn]⟩
  · have hn := get_rtaddrs_getD_none rtm.addrs sab RTAX_DNS2 (by decide) h
    exact ⟨by simp [forward_v4proposal, v4AddrOrZero, hn],
      by simp [forward_v6proposal, v6AddrOrZero, hn]⟩
  · have hn := get_rtaddrs_getD_none rtm.addrs sab RTAX_DNS3 (by decide) h
    exact ⟨by simp [forward_v4proposal, v4AddrOrZero, hn],
      by simp [forward_v6proposal, v6AddrOrZero, hn]⟩
  · have hn := get_rtaddrs_getD_none rtm.addrs sab RTAX_DNS4 (by decide) h
    exact ⟨by simp [forward_v4proposal, v4AddrOrZero, hn],
      by simp [forward_v6proposal, v6AddrOrZero, hn]⟩
  · have hn := get_rtaddrs_getD_none rtm.addrs sab RTAX_STATIC (by decide) h
    exact ⟨by simp [forward_v4proposal, hn], by simp [forward_v6proposal, hn]⟩
  · have hn := get_rtaddrs_getD_none rtm.addrs sab RTAX_SEARCH (by decide) h
    exact ⟨by simp [forward_v4proposal, hn], by simp [forward_v6proposal, hn],
      by simp [forward_v4proposal, hn], by simp [forward_v6proposal, hn]⟩

theorem claim3_absent_fields_zero_witness :
    ((forward_v4proposal rtmSample (get_rtaddrs rtmSample.addrs []).1 []).mtu = 0 ∧
      (forward_v4proposal rtmSample (get_rtaddrs rtmSample.addrs []).1 []).gateway =
        List.replicate 4 0 ∧
      (forward_v6proposal rtmSample (get_rtaddrs rtmSample.addrs []).1 []).netmask =
        List.replicate 16 0) :=
  ⟨((claim3_absent_fields_zero rtmSample []).1 (by decide)).1,
    ((claim3_absent_fields_zero rtmSample []).2.1 (by decide)).1,
    ((claim3_absent_fields_zero rtmSample []).2.2.2.1 (by decide)).2⟩

/-- C5: the add-route encoder attaches exactly the payloads whose bits
are set in the request's presence bitmap, in the fixed order
destination, gateway, netmask, interface address, and the declared
length flushed in the header equals the header size plus the sizes of
exactly the attached payloads. -/
theorem claim5_add_route_encoding (av4 : ImsgAddV4Route) :
    (netcfgd_add_v4route av4).payloads = specAddRoutePayloads av4 ∧
    (netcfgd_add_v4route av4).hdr.msglen =
      SIZEOF_RTM + (((netcfgd_add_v4route av4).payloads).map List.length).sum := by
  unfold netcfgd_add_v4route specAddRoutePayloads attachIf
  cases h1 : av4.addrs &&& RTA_DST != 0 <;>
    cases h2 : av4.addrs &&& RTA_GATEWAY != 0 <;>
      cases h3 : av4.addrs &&& RTA_NETMASK != 0 <;>
        cases h4 : av4.addrs &&& RTA_IFA != 0 <;>
          simp [h1, h2, h3, h4] <;> omega

/-- C6 (code bug witness): on a concrete delete-route request with
three 16-byte payloads, the encoder emits destination, gateway,
netmask in order, but the declared length flushed in the header is
only the payload sum (48), not the header size plus the payload sum
(`SIZEOF_RTM + 48` bytes actually handed to `writev`): the header,
`memset` to zero, never has `sizeof(rtm)` added to `rtm_msglen`. -/
theorem claim6_delete_route_msglen_bug :
    (netcfgd_delete_v4route 0 dv4Sample).payloads =
      [dv4Sample.dest, dv4Sample.gateway, dv4Sample.netmask] ∧
    (netcfgd_delete_v4route 0 dv4Sample).hdr.msglen = 48 ∧
    flushedSize (netcfgd_delete_v4route 0 dv4Sample) = SIZEOF_RTM + 48 ∧
    (netcfgd_delete_v4route 0 dv4Sample).hdr.msglen ≠
      flushedSize (netcfgd_delete_v4route 0 dv4Sample) := by
  refine ⟨rfl, rfl, rfl, by decide⟩

/-- C7: the add-route operation logs its warning exactly when the
`writev` return value differs from -1 (success), the inverse of the
remove-route, add-address and remove-address operations, which log
exactly when their kernel call returns -1 (failure). -/
theorem claim7_add_route_inverted_logging (ret : Int) :
    (netcfgd_add_v4route_warns ret = true ↔ ¬ ret = -1) ∧
    (netcfgd_add_v4route_warns ret = !netcfgd_delete_v4route_warns ret) ∧
    (netcfgd_delete_v4route_warns ret = true ↔ ret = -1) ∧
    (netcfgd_add_v4address_warns ret = true ↔ ret = -1) ∧
    (netcfgd_delete_v4address_warns ret = true ↔ ret = -1) := by
  unfold netcfgd_add_v4route_warns netcfgd_delete_v4route_warns
    netcfgd_add_v4address_warns netcfgd_delete_v4address_warns
  refine ⟨by simp, by simp [bne], by simp, by simp, by simp⟩

/-- C8: a zero-length read takes each registered channel's handler to
the orderly-shutdown outcome (`event_loopexit`, with the IPC handlers
also deregistering the event), never the fatal outcome; a would-block
(`EAGAIN`) or interrupted (`EINTR`) read produces neither outcome —
the raw-socket handler waits for the next readiness event, the IPC
handlers fall through to normal message draining. -/
theorem claim8_zero_read_orderly_shutdown :
    kr_dispatch_read (RawReadResult.bytes 0) = DispatchOutcome.orderlyExit ∧
    kr_dispatch_read RawReadResult.errAgain = DispatchOutcome.waitNext ∧
    kr_dispatch_read RawReadResult.errIntr = DispatchOutcome.waitNext ∧
    main_dispatch_frontend_read (ImsgReadResult.ok 0) = DispatchOutcome.orderlyExit ∧
    main_dispatch_frontend_read ImsgReadResult.errAgain = DispatchOutcome.processBuffer ∧
    main_dispatch_engine_read (ImsgReadResult.ok 0) = DispatchOutcome.orderlyExit ∧
    main_dispatch_engine_read ImsgReadResult.errAgain = DispatchOutcome.processBuffer ∧
    DispatchOutcome.orderlyExit ≠ DispatchOutcome.fatalExit ∧
    DispatchOutcome.waitNext ≠ DispatchOutcome.orderlyExit ∧
    DispatchOutcome.waitNext ≠ DispatchOutcome.fatalExit ∧
    DispatchOutcome.processBuffer ≠ DispatchOutcome.orderlyExit ∧
    DispatchOutcome.processBuffer ≠ DispatchOutcome.fatalExit := by
  decide

/-- Auxiliary: the head-insertion loop of `merge_config` reverses the
source list onto the destination list. -/
theorem moveGroupsToHead_eq (l acc : List NewdGroup) :
    moveGroupsToHead l acc = l.reverse ++ acc := by
  induction l generalizing acc with
  | nil => simp [moveGroupsToHead]
  | cons g rest ih => simp [moveGroupsToHead, ih]

/-- C9 counterexample: `merge_config` does not replace every scalar
field — on configurations differing in `text`, the merged result keeps
the retained configuration's `text` instead of the new one. -/
theorem claim9_scalar_replacement_counterexample :
    (merge_config confOldSample confNewSample).text = "oldtext" ∧
    confNewSample.text = "newtext" ∧
    (merge_config confOldSample confNewSample).text ≠ confNewSample.text := by
  refine ⟨rfl, rfl, by decide⟩

/-- C9 (amended): `merge_config` replaces the scalar fields `opts`,
`yesno`, `integer` and `global_text` with the new configuration's
values, retains every other scalar field of the old configuration, and
replaces the group collection wholesale: no old entry survives and
every new entry is adopted by reference (head insertion reverses the
order). -/
theorem claim9_merge_config_semantics (conf xconf : NewdConf) :
    (merge_config conf xconf).opts = xconf.opts ∧
    (merge_config conf xconf).yesno = xconf.yesno ∧
    (merge_config conf xconf).integer = xconf.integer ∧
    (merge_config conf xconf).global_text = xconf.global_text ∧
    (merge_config conf xconf).csock = conf.csock ∧
    (merge_config conf xconf).global_yesno = conf.global_yesno ∧
    (merge_config conf xconf).global_integer = conf.global_integer ∧
    (merge_config conf xconf).v4_bits = conf.v4_bits ∧
    (merge_config conf xconf).global_v4_bits = conf.global_v4_bits ∧
    (merge_config conf xconf).v6_bits = conf.v6_bits ∧
    (merge_config conf xconf).global_v6_bits = conf.global_v6_bits ∧
    (merge_config conf xconf).v4address = conf.v4address ∧
    (merge_config conf xconf).global_v4address = conf.global_v4address ∧
    (merge_config conf xconf).v6address = conf.v6address ∧
    (merge_config conf xconf).global_v6address = conf.global_v6address ∧
    (merge_config conf xconf).text = conf.text ∧
    (merge_config conf xconf).group_list = xconf.group_list.reverse := by
  simp [merge_config, moveGroupsToHead_eq]
